import Mathlib

/-!
Shallow embedding of `scripts/rl_node.py` from the Learning-Guided-Control
repository.

The node receives odometry and laser-scan messages, runs a learned policy
(`run_model`), and either publishes a drive command directly (direct-drive
mode, `self.DRIVE`) or resets an external simulator to the current pose and
rolls the policy forward through it for `N_SIM` steps, formatting every
recorded state with `to_mppi_state`, resampling the resulting trajectory and
publishing it.

Modelling conventions: machine floats are real numbers; the NaN produced by
NumPy's `arccos` outside `[-1, 1]` is modelled with `Option` in
`estimateYaw`; a NumPy `IndexError` from fancy indexing is modelled as `none`
by `gatherIdx`, both in `laser_callback` and in the rollout loop's scan
subsampling (line 164), where it aborts the cycle: the loop stops early and
nothing is published; the external ONNX policy and the f1tenth-gym simulator
are opaque collaborators, modelled as function parameters of the rollout.
-/

noncomputable section

/-- NumPy clip `x.clip(lo, hi) = minimum(hi, maximum(x, lo))`
(rl_node.py lines 109 and 201). -/
def clip (lo hi x : ℝ) : ℝ := min hi (max lo x)

/-- Python float modulo `a % b` for positive modulus `b`:
`a % b = a - b * floor (a / b)` (used in `to_mppi_state`, line 216). -/
def pymod (a b : ℝ) : ℝ := a - b * (⌊a / b⌋ : ℤ)

/-- NumPy `np.arctan2 y x` (rl_node.py line 218): the angle of the vector
`(x, y)`, in `(-pi, pi]`, by the usual case split on the signs of `x` and
`y` (signed zeros are not modelled; `arctan2 0 0 = 0`). -/
def arctan2 (y x : ℝ) : ℝ :=
  if 0 < x then Real.arctan (y / x)
  else if x < 0 then
    (if 0 ≤ y then Real.arctan (y / x) + Real.pi else Real.arctan (y / x) - Real.pi)
  else if 0 < y then Real.pi / 2
  else if y < 0 then -(Real.pi / 2)
  else 0

/-- Distance from the front axle to the center of gravity, `self.LF` (line 59). -/
def LF : ℝ := 0.15875

/-- Distance from the rear axle to the center of gravity, `self.LR` (line 60). -/
def LR : ℝ := 0.17145

/-- Per-channel control maxima, `self.CONTROL_MAX = np.array([0.4189, 4.0])`
(line 70): maximal steering angle and maximal speed. -/
def CONTROL_MAX : ℝ × ℝ := (0.4189, 4.0)

/-- `RLNode.get_beta` (lines 206-207): kinematic bicycle-model slip angle
`arctan(LR * tan(steer) / (LF + LR))`. -/
def get_beta (steer : ℝ) : ℝ := Real.arctan (LR * Real.tan steer / (LF + LR))

/-- One 7-component state vector of the published reference trajectory, in the
order built by `to_mppi_state` (lines 209-220):
`[x, y, delta, vx, yaw_wrapped, yaw_rate, beta]`. -/
structure MppiState where
  x : ℝ
  y : ℝ
  delta : ℝ
  vx : ℝ
  yawWrapped : ℝ
  yawRate : ℝ
  beta : ℝ

/-- `RLNode.to_mppi_state` (lines 209-220): formats a recorded
`(x, y, yaw, yaw_rate, vx, vy, delta)` tuple as an `MppiState`, wrapping the
yaw via `(yaw + pi) % (2 pi) - pi` and setting `beta = arctan2(vy, vx)`. -/
def to_mppi_state (x y yaw yaw_rate vx vy delta : ℝ) : MppiState :=
  { x := x
    y := y
    delta := delta
    vx := vx
    yawWrapped := pymod (yaw + Real.pi) (2 * Real.pi) - Real.pi
    yawRate := yaw_rate
    beta := arctan2 vy vx }

/-- The yaw computation of `pose_callback` (line 130):
`yaw = 2 * np.arccos(ori.w)`.  NumPy's `arccos` returns NaN for arguments
outside `[-1, 1]` (the code performs no clamping); the NaN outcome is
modelled as `none`. -/
def estimateYaw (w : ℝ) : Option ℝ :=
  if -1 ≤ w ∧ w ≤ 1 then some (2 * Real.arccos w) else none

/-- `self.SCAN_INDEX = np.arange(0, 1080, 1080 // N_BEAMS)` (line 62): the
fixed subsampling indices `0, s, 2s, ...` below `1080` with stride
`s = 1080 / nBeams`. -/
def SCAN_INDEX (nBeams : ℕ) : List ℕ :=
  let stride := 1080 / nBeams
  List.range' 0 ((1080 + stride - 1) / stride) stride

/-- NumPy fancy indexing `vs[idx]`: reads `vs` at every index of `idx`,
failing (NumPy raises `IndexError`, modelled as `none`) as soon as an index
is out of bounds. -/
def gatherIdx (vs : List ℝ) : List ℕ → Option (List ℝ)
  | [] => some []
  | i :: is =>
    match vs[i]?, gatherIdx vs is with
    | some v, some rest => some (v :: rest)
    | _, _ => none

/-- `RLNode.laser_callback` (lines 102-111): clips every reading to
`[range_min, range_max]` and overwrites the scan buffer with
`values[self.SCAN_INDEX]`. -/
def laser_callback (nBeams : ℕ) (range_min range_max : ℝ) (ranges : List ℝ) :
    Option (List ℝ) :=
  let values := ranges.map (clip range_min range_max)
  gatherIdx values (SCAN_INDEX nBeams)

/-- Fuel-driven stride slicing: `everyKF k fuel l` keeps the head of `l` and
recurses on `l` with the next `k - 1` elements dropped, as long as fuel
remains.  With `fuel ≥ l.length` this is exactly NumPy basic slicing
`l[::k]` for `k ≥ 1`. -/
def everyKF {α : Type} (k : ℕ) : ℕ → List α → List α
  | _, [] => []
  | 0, _ :: _ => []
  | fuel + 1, a :: l => a :: everyKF k fuel (l.drop (k - 1))

/-- NumPy basic slicing `l[::k]` for stride `k ≥ 1` (used as
`ref_traj[:: int(self.config.sim_time_step / self.config.rl_sim_time_step)]`,
lines 185-187): the elements of `l` at indices `0, k, 2k, ...`. -/
def everyK {α : Type} (k : ℕ) (l : List α) : List α := everyKF k l.length l

/-- Observation bundle fed to the ONNX policy (lines 138-143 and 175-179):
scan buffer, pose `(x, y, yaw)`, velocities `(vx, vy, yaw_rate)`, heading
`(steer, slip angle)`. -/
structure Obs where
  scan : List ℝ
  pose : ℝ × ℝ × ℝ
  vel : ℝ × ℝ × ℝ
  heading : ℝ × ℝ

/-- Observation dictionary returned by one `self.env.step` of the f1tenth-gym
simulator (lines 163-170): full-resolution scan plus scalar pose and
velocity components of agent 0. -/
structure SimObs where
  scan : List ℝ
  x : ℝ
  y : ℝ
  yaw : ℝ
  vx : ℝ
  vy : ℝ
  omega : ℝ

/-- The node's mutable fields touched by the callbacks: `self.pose`,
`self.vels`, `self.heading`, `self.laser_scan` (lines 56-63). -/
structure NodeState where
  pose : ℝ × ℝ × ℝ
  vels : ℝ × ℝ × ℝ
  heading : ℝ × ℝ
  laserScan : List ℝ

/-- The fields of an odometry message read by `pose_callback`
(lines 126-136): position `(px, py)`, orientation components `w` and `z`
(only `w` is read), linear velocity `(vx, vy)` and angular velocity `wz`. -/
structure OdomMsg where
  px : ℝ
  py : ℝ
  ow : ℝ
  oz : ℝ
  vx : ℝ
  vy : ℝ
  wz : ℝ

/-- Result of the rollout loop of `pose_callback` (lines 162-183).  Besides
the data the source accumulates (`ref_traj[1..]`, the `xs`/`ys`/`yaws` lists
for visualization, the evolving simulator state and last action), the
instrumentation fields `obsLog`, `steps` and `calls` record the observations
fed to the policy, the number of simulator steps and the number of policy
invocations, and `ok` records whether every iteration completed: it is
`false` when the scan subsampling of some iteration raised an `IndexError`
(line 164), which terminates the loop early. -/
structure LoopOut (S : Type) where
  env : S
  steer : ℝ
  vel : ℝ
  traj : List MppiState
  obsLog : List Obs
  xs : List ℝ
  ys : List ℝ
  yaws : List ℝ
  steps : ℕ
  calls : ℕ
  ok : Bool

/-- Everything one invocation of `pose_callback` does: the updated node state,
the optional published drive command, visualization data, the fine-grained
trajectory (instrumentation: `ref_traj` before resampling), the published
resampled trajectory, and instrumentation counters (`obsLog`, number of
simulator resets, simulator steps, policy invocations). -/
structure CycleOutput (S : Type) where
  state : NodeState
  drive : Option (ℝ × ℝ)
  viz : Option (List ℝ × List ℝ × List ℝ)
  fineTraj : Option (List MppiState)
  traj : Option (List MppiState)
  obsLog : List Obs
  resets : ℕ
  steps : ℕ
  calls : ℕ

/-- `RLNode.run_model` (lines 197-204): invokes the policy `P` on `obs`,
clips each of the two raw outputs to `[-1, 1]` and scales element-wise by
`CONTROL_MAX`, returning `(steer, vel)`. -/
def run_model (P : Obs → ℝ × ℝ) (obs : Obs) : ℝ × ℝ :=
  let control := P obs
  (clip (-1) 1 control.1 * CONTROL_MAX.1, clip (-1) 1 control.2 * CONTROL_MAX.2)

/-- The observation dictionary built by `pose_callback` for the real current
state (lines 138-143): the stored scan buffer, the freshly written pose
(with `yaw = 2 * arccos w`), the freshly written velocities, and the heading
stored by the previous cycle. -/
def initialObs (st : NodeState) (msg : OdomMsg) : Obs :=
  { scan := st.laserScan
    pose := (msg.px, msg.py, 2 * Real.arccos msg.ow)
    vel := (msg.vx, msg.vy, msg.wz)
    heading := st.heading }

/-- The rollout loop of `pose_callback` (lines 162-183): for each of the `n`
iterations, step the simulator with the last action, subsample the simulated
scan with the fancy indexing `obs["scans"][:, self.SCAN_INDEX]` (line 164,
modelled with `gatherIdx` exactly as in `laser_callback`), build the
observation (with slip angle `get_beta steer`), invoke the policy for the
next action, and record `to_mppi_state` of the simulated state with the
*new* steering command.  When the subsampling raises an `IndexError`
(`gatherIdx` returns `none`), the exception terminates the loop at that
iteration: the simulator step already happened (`steps := 1`), nothing of
that iteration is recorded, the policy is not invoked, and `ok := false`
propagates the abort. -/
def rolloutLoop {S : Type} (P : Obs → ℝ × ℝ) (step : S → ℝ × ℝ → S × SimObs)
    (nBeams : ℕ) : ℕ → S → ℝ → ℝ → LoopOut S
  | 0, env, steer, vel =>
      { env := env, steer := steer, vel := vel, traj := [], obsLog := [],
        xs := [], ys := [], yaws := [], steps := 0, calls := 0, ok := true }
  | n + 1, env, steer, vel =>
      let r := step env (steer, vel)
      let o := r.2
      match gatherIdx o.scan (SCAN_INDEX nBeams) with
      | none =>
          { env := r.1, steer := steer, vel := vel, traj := [], obsLog := [],
            xs := [], ys := [], yaws := [], steps := 1, calls := 0, ok := false }
      | some scan =>
          let beta := get_beta steer
          let obs : Obs :=
            { scan := scan, pose := (o.x, o.y, o.yaw),
              vel := (o.vx, o.vy, o.omega), heading := (steer, beta) }
          let c := run_model P obs
          let rest := rolloutLoop P step nBeams n r.1 c.1 c.2
          { env := rest.env, steer := rest.steer, vel := rest.vel,
            traj := to_mppi_state o.x o.y o.yaw o.omega o.vx o.vy c.1 :: rest.traj,
            obsLog := obs :: rest.obsLog,
            xs := o.x :: rest.xs, ys := o.y :: rest.ys, yaws := o.yaw :: rest.yaws,
            steps := rest.steps + 1, calls := rest.calls + 1, ok := rest.ok }

/-- `RLNode.pose_callback` (lines 123-189).  Parameters: the raw policy `P`
(`self.model.run`), the simulator `reset`/`step` (`self.env`), the
configured beam count, the horizon `nSim = self.N_SIM`, the resampling
stride `k = int(sim_time_step / rl_sim_time_step)`, the mode flag
`DRIVE = not use_mppi`, the stored node state and the incoming message.

It writes pose and velocities, invokes the policy once on the real state,
stores the new heading, records `ref_traj[0]` from the real state; in drive
mode it publishes the drive command and returns; otherwise it resets the
simulator to the current pose and runs the rollout loop: if every iteration
completes it publishes the visualization data and the trajectory resampled
with stride `k`; if an iteration raised an `IndexError` the exception
propagates out of the callback, so nothing is published (the already
written pose, velocities and heading persist). -/
def pose_callback {S : Type} (P : Obs → ℝ × ℝ) (reset : ℝ × ℝ × ℝ → S)
    (step : S → ℝ × ℝ → S × SimObs) (nBeams nSim k : ℕ) (DRIVE : Bool)
    (st : NodeState) (msg : OdomMsg) : CycleOutput S :=
  let yaw := 2 * Real.arccos msg.ow
  let pose := (msg.px, msg.py, yaw)
  let vels := (msg.vx, msg.vy, msg.wz)
  let obs := initialObs st msg
  let c := run_model P obs
  let heading := (c.1, get_beta c.1)
  let traj0 := to_mppi_state msg.px msg.py yaw msg.wz msg.vx msg.vy c.1
  let st' : NodeState :=
    { pose := pose, vels := vels, heading := heading, laserScan := st.laserScan }
  if DRIVE then
    { state := st', drive := some c, viz := none, fineTraj := none,
      traj := none, obsLog := [obs], resets := 0, steps := 0, calls := 1 }
  else
    let env0 := reset (msg.px, msg.py, yaw)
    let lo := rolloutLoop P step nBeams nSim env0 c.1 c.2
    if lo.ok then
      let fine := traj0 :: lo.traj
      { state := st', drive := none, viz := some (lo.xs, lo.ys, lo.yaws),
        fineTraj := some fine, traj := some (everyK k fine),
        obsLog := obs :: lo.obsLog, resets := 1, steps := lo.steps,
        calls := 1 + lo.calls }
    else
      { state := st', drive := none, viz := none, fineTraj := none,
        traj := none, obsLog := obs :: lo.obsLog, resets := 1,
        steps := lo.steps, calls := 1 + lo.calls }

/-- A policy stub returning the zero action, used for concrete instances. -/
def constPolicy : Obs → ℝ × ℝ := fun _ => (0, 0)

/-- A trivial simulator state for concrete instances. -/
def unitReset : ℝ × ℝ × ℝ → Unit := fun _ => ()

/-- A fixed simulator observation for concrete instances: a uniform scan with
the vehicle at the origin moving with unit longitudinal velocity. -/
def testSimObs : SimObs :=
  { scan := List.replicate 1080 10, x := 0, y := 0, yaw := 0,
    vx := 1, vy := 0, omega := 0 }

/-- A trivial simulator step for concrete instances. -/
def unitStep : Unit → ℝ × ℝ → Unit × SimObs := fun _ _ => ((), testSimObs)

/-- A simulator step returning an empty scan, on which the rollout's scan
subsampling raises an `IndexError` in its first iteration. -/
def shortStep : Unit → ℝ × ℝ → Unit × SimObs :=
  fun _ _ => ((), { scan := [], x := 0, y := 0, yaw := 0, vx := 0, vy := 0, omega := 0 })

/-- Node state for the end-to-end scenario: origin pose, zero stored
velocities and heading, scan buffer uniformly `10.0`. -/
def st0 : NodeState :=
  { pose := (0, 0, 0), vels := (0, 0, 0), heading := (0, 0),
    laserScan := List.replicate 1080 10 }

/-- Odometry message for the end-to-end scenario: position `(0, 0)`, identity
orientation (`w = 1`, hence yaw `0`), velocity `(1, 0)`, no angular rate. -/
def msg0 : OdomMsg :=
  { px := 0, py := 0, ow := 1, oz := 0, vx := 1, vy := 0, wz := 0 }

/-- For `lo ≤ hi` the clipped value lies in `[lo, hi]`. -/
theorem clip_mem (lo hi x : ℝ) (h : lo ≤ hi) :
    lo ≤ clip lo hi x ∧ clip lo hi x ≤ hi :=
  ⟨le_min h (le_max_left _ _), min_le_left _ _⟩

/-- Clipping a value already inside the bounds changes nothing. -/
theorem clip_eq_self (lo hi x : ℝ) (h1 : lo ≤ x) (h2 : x ≤ hi) :
    clip lo hi x = x := by
  unfold clip
  rw [max_eq_right h1, min_eq_right h2]

/-- Python modulo as a scaled fractional part. -/
theorem pymod_eq (a b : ℝ) (hb : b ≠ 0) : pymod a b = b * Int.fract (a / b) := by
  unfold pymod
  rw [Int.fract]
  field_simp

/-- Python modulo with positive modulus is nonnegative. -/
theorem pymod_nonneg (a b : ℝ) (hb : 0 < b) : 0 ≤ pymod a b := by
  rw [pymod_eq a b hb.ne']
  exact mul_nonneg hb.le (Int.fract_nonneg _)

/-- Python modulo with positive modulus is below the modulus. -/
theorem pymod_lt (a b : ℝ) (hb : 0 < b) : pymod a b < b := by
  rw [pymod_eq a b hb.ne']
  calc b * Int.fract (a / b) < b * 1 :=
        mul_lt_mul_of_pos_left (Int.fract_lt_one _) hb
    _ = b := mul_one b

/-- C4: for every raw policy output, regardless of its magnitude, the control
action returned by `run_model` satisfies `steer ∈ [-0.4189, 0.4189]` and
`speed ∈ [-4, 4]` (each raw component is clipped to `[-1, 1]` and scaled by
the per-channel maximum); the clipping is idempotent, and re-clipping the
adapter's output to its physical bounds changes nothing. -/
theorem c4_control_action_bounds (P : Obs → ℝ × ℝ) (obs : Obs) :
    (-0.4189 ≤ (run_model P obs).1 ∧ (run_model P obs).1 ≤ 0.4189
      ∧ -4 ≤ (run_model P obs).2 ∧ (run_model P obs).2 ≤ 4)
    ∧ (∀ z : ℝ, clip (-1) 1 (clip (-1) 1 z) = clip (-1) 1 z)
    ∧ clip (-0.4189) 0.4189 (run_model P obs).1 = (run_model P obs).1
    ∧ clip (-4) 4 (run_model P obs).2 = (run_model P obs).2 := by
  have h1 := clip_mem (-1) 1 (P obs).1 (by norm_num)
  have h2 := clip_mem (-1) 1 (P obs).2 (by norm_num)
  have hrm : run_model P obs
      = (clip (-1) 1 (P obs).1 * 0.4189, clip (-1) 1 (P obs).2 * 4.0) := rfl
  have hbounds : -0.4189 ≤ (run_model P obs).1 ∧ (run_model P obs).1 ≤ 0.4189
      ∧ -4 ≤ (run_model P obs).2 ∧ (run_model P obs).2 ≤ 4 := by
    rw [hrm]
    refine ⟨?_, ?_, ?_, ?_⟩ <;> simp only [Prod.fst, Prod.snd] <;>
      nlinarith [h1.1, h1.2, h2.1, h2.2]
  refine ⟨hbounds, ?_, ?_, ?_⟩
  · intro z
    exact clip_eq_self _ _ _ (clip_mem (-1) 1 z (by norm_num)).1
      (clip_mem (-1) 1 z (by norm_num)).2
  · exact clip_eq_self _ _ _ hbounds.1 hbounds.2.1
  · exact clip_eq_self _ _ _ hbounds.2.2.1 hbounds.2.2.2

/-- C2 (amended): the wrapped-yaw field produced by the formatter equals
`((yaw + pi) mod 2 pi) - pi` and lies in the half-open interval
`[-pi, pi)`; an input yaw of `3 pi / 2` yields a wrapped yaw of `-pi / 2`. -/
theorem c2_yaw_wrapped_range (x y yaw yr vx vy d : ℝ) :
    (to_mppi_state x y yaw yr vx vy d).yawWrapped
        = pymod (yaw + Real.pi) (2 * Real.pi) - Real.pi
    ∧ -Real.pi ≤ (to_mppi_state x y yaw yr vx vy d).yawWrapped
    ∧ (to_mppi_state x y yaw yr vx vy d).yawWrapped < Real.pi
    ∧ (to_mppi_state 0 0 (3 * Real.pi / 2) 0 0 0 0).yawWrapped = -(Real.pi / 2) := by
  have h2pi : (0:ℝ) < 2 * Real.pi := by positivity
  refine ⟨rfl, ?_, ?_, ?_⟩
  · have h := pymod_nonneg (yaw + Real.pi) (2 * Real.pi) h2pi
    show -Real.pi ≤ pymod (yaw + Real.pi) (2 * Real.pi) - Real.pi
    linarith
  · have h := pymod_lt (yaw + Real.pi) (2 * Real.pi) h2pi
    show pymod (yaw + Real.pi) (2 * Real.pi) - Real.pi < Real.pi
    linarith
  · show pymod (3 * Real.pi / 2 + Real.pi) (2 * Real.pi) - Real.pi = -(Real.pi / 2)
    have h2pi' : (2:ℝ) * Real.pi ≠ 0 := by positivity
    have hq : (3 * Real.pi / 2 + Real.pi) / (2 * Real.pi) = 5 / 4 := by
      rw [div_eq_iff h2pi']
      ring
    unfold pymod
    rw [hq]
    have h54 : ⌊(5 / 4 : ℝ)⌋ = 1 := by
      rw [Int.floor_eq_iff]
      norm_num
    rw [h54]
    push_cast
    ring

/-- C2 counterexample: at yaw `pi` the formatter produces wrapped yaw `-pi`,
which does not lie in the claimed half-open interval `(-pi, pi]`. -/
theorem c2_interval_counterexample :
    (to_mppi_state 0 0 Real.pi 0 0 0 0).yawWrapped = -Real.pi
    ∧ (to_mppi_state 0 0 Real.pi 0 0 0 0).yawWrapped
        ∉ Set.Ioc (-Real.pi) Real.pi := by
  have h2pi' : (2:ℝ) * Real.pi ≠ 0 := by positivity
  have hval : (to_mppi_state 0 0 Real.pi 0 0 0 0).yawWrapped = -Real.pi := by
    show pymod (Real.pi + Real.pi) (2 * Real.pi) - Real.pi = -Real.pi
    have hq : (Real.pi + Real.pi) / (2 * Real.pi) = 1 := by
      rw [div_eq_iff h2pi']
      ring
    unfold pymod
    rw [hq, Int.floor_one]
    push_cast
    ring
  refine ⟨hval, ?_⟩
  rw [hval]
  intro h
  exact lt_irrefl _ h.1

/-- C6: the state estimator does not clamp the quaternion `w` component: at
`w = 2` the inverse cosine is NaN (modelled `none`), so the computed yaw is
not finite there. -/
theorem c6_unclamped_arccos : estimateYaw 2 = none := by
  unfold estimateYaw
  norm_num

/-- C10: for every orientation with `w ∈ [-1, 1]` the computed yaw is
`2 * arccos w`, lies in `[0, 2 pi]` and is never negative; the quaternion
`z` component is ignored by the pose callback, and the pure-yaw quaternions
of rotations `+theta` and `-theta` (equal `w = cos (theta / 2)`, opposite
`z`) yield the same stored yaw. -/
theorem c10_yaw_range_and_sign :
    (∀ w : ℝ, -1 ≤ w → w ≤ 1 →
      ∃ yw, estimateYaw w = some yw ∧ 0 ≤ yw ∧ yw ≤ 2 * Real.pi)
    ∧ (∀ (S : Type) (P : Obs → ℝ × ℝ) (reset : ℝ × ℝ × ℝ → S)
        (step : S → ℝ × ℝ → S × SimObs) (nb n k : ℕ) (d : Bool)
        (st : NodeState) (msg : OdomMsg) (z : ℝ),
        pose_callback P reset step nb n k d st { msg with oz := z }
          = pose_callback P reset step nb n k d st msg)
    ∧ (∀ θ : ℝ, estimateYaw (Real.cos (-θ / 2)) = estimateYaw (Real.cos (θ / 2))) := by
  refine ⟨?_, ?_, ?_⟩
  · intro w h1 h2
    refine ⟨2 * Real.arccos w, ?_, ?_, ?_⟩
    · unfold estimateYaw
      rw [if_pos ⟨h1, h2⟩]
    · have := Real.arccos_nonneg w
      linarith
    · have := Real.arccos_le_pi w
      linarith
  · intro S P reset step nb n k d st msg z
    cases msg
    rfl
  · intro θ
    rw [neg_div, Real.cos_neg]

/-- Concrete instance of C10 at `w = 1` with its hypotheses discharged. -/
theorem c10_witness :
    (-1 : ℝ) ≤ 1 ∧ (1 : ℝ) ≤ 1
    ∧ ∃ yw, estimateYaw 1 = some yw ∧ 0 ≤ yw ∧ yw ≤ 2 * Real.pi :=
  ⟨by norm_num, le_refl 1, c10_yaw_range_and_sign.1 1 (by norm_num) (le_refl 1)⟩

/-- With enough fuel, taking every `k`-th element of a list of length `m`
yields `⌈m / k⌉` elements. -/
theorem everyKF_length {α : Type} (k : ℕ) (hk : 0 < k) :
    ∀ (fuel : ℕ) (l : List α), l.length ≤ fuel →
      (everyKF k fuel l).length = (l.length + k - 1) / k := by
  have hzero : ((0 : ℕ) + k - 1) / k = 0 := Nat.div_eq_of_lt (by omega)
  intro fuel
  induction fuel with
  | zero =>
      intro l hl
      rw [List.eq_nil_of_length_eq_zero (Nat.le_zero.mp hl)]
      simpa [everyKF] using hzero.symm
  | succ m ih =>
      intro l hl
      cases l with
      | nil => simpa [everyKF] using hzero.symm
      | cons a t =>
          have hlen : (t.drop (k - 1)).length = t.length - (k - 1) :=
            List.length_drop (k - 1) t
          have htm : t.length ≤ m := by
            simpa using Nat.le_of_succ_le_succ hl
          have ihd := ih (t.drop (k - 1)) (by omega)
          show (everyKF k m (t.drop (k - 1))).length + 1 = (t.length + 1 + k - 1) / k
          rw [ihd, hlen]
          rcases Nat.lt_or_ge t.length (k - 1) with hlt | hge
          · have h1 : t.length - (k - 1) = 0 := by omega
            have h2 : t.length + 1 + k - 1 = t.length + k := by omega
            rw [h1, hzero, h2, Nat.add_div_right _ hk,
              Nat.div_eq_of_lt (show t.length < k by omega)]
          · have h1 : t.length - (k - 1) + k - 1 = t.length := by omega
            have h2 : t.length + 1 + k - 1 = t.length + k := by omega
            rw [h1, h2, Nat.add_div_right _ hk]

/-- Stride slicing of a list of length `m` with stride `k ≥ 1` yields
`⌈m / k⌉ = (m + k - 1) / k` elements. -/
theorem everyK_length {α : Type} (k : ℕ) (hk : 0 < k) (l : List α) :
    (everyK k l).length = (l.length + k - 1) / k :=
  everyKF_length k hk l.length l (le_refl _)

/-- Stride slicing always keeps the first element. -/
theorem everyK_cons_head {α : Type} (k : ℕ) (a : α) (l : List α) :
    (everyK k (a :: l)).head? = some a := rfl

/-- If every index is in bounds, fancy indexing succeeds and returns one
value per index, each a member of the source list. -/
theorem gatherIdx_total (vs : List ℝ) :
    ∀ idx : List ℕ, (∀ i ∈ idx, i < vs.length) →
      ∃ out, gatherIdx vs idx = some out ∧ out.length = idx.length
        ∧ ∀ v ∈ out, v ∈ vs := by
  intro idx
  induction idx with
  | nil => exact fun _ => ⟨[], rfl, rfl, by simp⟩
  | cons i is ih =>
      intro h
      obtain ⟨out, hout, hlen, hmem⟩ := ih fun j hj => h j (List.mem_cons_of_mem _ hj)
      have hi : i < vs.length := h i (List.mem_cons_self _ _)
      refine ⟨vs[i] :: out, ?_, ?_, ?_⟩
      · unfold gatherIdx
        rw [List.getElem?_eq_getElem hi, hout]
      · simp [hlen]
      · intro v hv
        rcases List.mem_cons.mp hv with h1 | h1
        · subst h1
          exact List.getElem_mem hi
        · exact hmem v h1

/-- For a positive beam count dividing 1080, `SCAN_INDEX` has exactly
`nBeams` entries and every entry is below 1080. -/
theorem SCAN_INDEX_facts (nBeams : ℕ) (hn : 0 < nBeams) (hd : nBeams ∣ 1080) :
    (SCAN_INDEX nBeams).length = nBeams
    ∧ ∀ i ∈ SCAN_INDEX nBeams, i < 1080 := by
  have hs_pos : 0 < 1080 / nBeams :=
    Nat.div_pos (Nat.le_of_dvd (by norm_num) hd) hn
  have hsd : (1080 / nBeams) ∣ 1080 := Nat.div_dvd_of_dvd hd
  have hcount : (1080 + 1080 / nBeams - 1) / (1080 / nBeams)
      = 1080 / (1080 / nBeams) := by
    obtain ⟨q, hq⟩ := hsd
    set s := 1080 / nBeams with hs
    rw [hq]
    have h1 : s * q + s - 1 = s * q + (s - 1) := by omega
    rw [h1, Nat.mul_add_div hs_pos, Nat.div_eq_of_lt (by omega),
      Nat.mul_div_cancel_left q hs_pos]
    omega
  have hself : 1080 / (1080 / nBeams) = nBeams :=
    Nat.div_div_self hd (by norm_num)
  constructor
  · show (List.range' 0 ((1080 + 1080 / nBeams - 1) / (1080 / nBeams))
        (1080 / nBeams)).length = nBeams
    rw [List.length_range', hcount, hself]
  · intro i hi
    have hi' : i ∈ List.range' 0 ((1080 + 1080 / nBeams - 1) / (1080 / nBeams))
        (1080 / nBeams) := hi
    rw [List.mem_range'] at hi'
    obtain ⟨j, hj, hij⟩ := hi'
    rw [hcount] at hj
    rw [Nat.zero_add] at hij
    set s := 1080 / nBeams with hs
    have hmul : s * (j + 1) ≤ s * (1080 / s) := Nat.mul_le_mul_left s hj
    have hcnt : s * (1080 / s) = 1080 := Nat.mul_div_cancel' hsd
    have h1 : i < s * j + s := by
      rw [hij]
      exact Nat.lt_add_of_pos_right hs_pos
    have h2 : s * j + s = s * (j + 1) := by ring
    have h3 : s * (j + 1) ≤ 1080 := by
      rw [← hcnt]
      exact hmul
    calc i < s * (j + 1) := h2 ▸ h1
      _ ≤ 1080 := h3

/-- The fixed test simulator returns full-resolution scans, so every
subsampling index is in bounds whenever the beam count divides 1080. -/
theorem unitStep_scan_long (nb : ℕ) (hn : 0 < nb) (hd : nb ∣ 1080) :
    ∀ (s : Unit) (a : ℝ × ℝ), ∀ i ∈ SCAN_INDEX nb,
      i < ((unitStep s a).2).scan.length := by
  intro s a i hi
  show i < (List.replicate 1080 (10 : ℝ)).length
  rw [List.length_replicate]
  exact (SCAN_INDEX_facts nb hn hd).2 i hi

/-- When every simulator scan covers the subsampling indices, the rollout
loop completes: no iteration aborts, the simulator is stepped and the
policy invoked exactly once per iteration, and one trajectory point is
recorded per iteration. -/
theorem rolloutLoop_complete {S : Type} (P : Obs → ℝ × ℝ)
    (step : S → ℝ × ℝ → S × SimObs) (nb : ℕ)
    (hscan : ∀ (s : S) (a : ℝ × ℝ), ∀ i ∈ SCAN_INDEX nb,
      i < ((step s a).2).scan.length) :
    ∀ (n : ℕ) (env : S) (s v : ℝ),
      (rolloutLoop P step nb n env s v).ok = true
      ∧ (rolloutLoop P step nb n env s v).calls = n
      ∧ (rolloutLoop P step nb n env s v).steps = n
      ∧ (rolloutLoop P step nb n env s v).traj.length = n := by
  intro n
  induction n with
  | zero => exact fun env s v => ⟨rfl, rfl, rfl, rfl⟩
  | succ m ih =>
      intro env s v
      obtain ⟨sc, hsc, -, -⟩ :=
        gatherIdx_total ((step env (s, v)).2).scan (SCAN_INDEX nb) (hscan env (s, v))
      refine ⟨?_, ?_, ?_, ?_⟩ <;> simp [rolloutLoop, hsc, ih]

/-- The abort path is real: a simulator whose scans are empty makes the
first iteration's fancy indexing fail, so the loop stops after a single
simulator step with no policy call, and the planning cycle publishes
neither a trajectory nor visualization data. -/
theorem rolloutLoop_short_scan_aborts :
    (rolloutLoop constPolicy shortStep 1080 2 () 0 0).ok = false
    ∧ (rolloutLoop constPolicy shortStep 1080 2 () 0 0).steps = 1
    ∧ (rolloutLoop constPolicy shortStep 1080 2 () 0 0).calls = 0
    ∧ (pose_callback constPolicy unitReset shortStep 1080 2 1 false st0 msg0).traj = none
    ∧ (pose_callback constPolicy unitReset shortStep 1080 2 1 false st0 msg0).viz = none :=
  ⟨rfl, rfl, rfl, rfl, rfl⟩

/-- Normal form of a planning-mode cycle whose rollout completes: everything
the callback stores and publishes, spelled out. -/
theorem pose_callback_plan_ok {S : Type} (P : Obs → ℝ × ℝ)
    (reset : ℝ × ℝ × ℝ → S) (step : S → ℝ × ℝ → S × SimObs)
    (nb n k : ℕ) (st : NodeState) (msg : OdomMsg)
    (hok : (rolloutLoop P step nb n (reset (msg.px, msg.py, 2 * Real.arccos msg.ow))
        (run_model P (initialObs st msg)).1
        (run_model P (initialObs st msg)).2).ok = true) :
    pose_callback P reset step nb n k false st msg =
      (let c := run_model P (initialObs st msg)
       let lo := rolloutLoop P step nb n
         (reset (msg.px, msg.py, 2 * Real.arccos msg.ow)) c.1 c.2
       let fine := to_mppi_state msg.px msg.py (2 * Real.arccos msg.ow)
         msg.wz msg.vx msg.vy c.1 :: lo.traj
       { state := { pose := (msg.px, msg.py, 2 * Real.arccos msg.ow)
                    vels := (msg.vx, msg.vy, msg.wz)
                    heading := (c.1, get_beta c.1)
                    laserScan := st.laserScan }
         drive := none
         viz := some (lo.xs, lo.ys, lo.yaws)
         fineTraj := some fine
         traj := some (everyK k fine)
         obsLog := initialObs st msg :: lo.obsLog
         resets := 1
         steps := lo.steps
         calls := 1 + lo.calls }) := by
  simp only [pose_callback, Bool.false_eq_true, if_false]
  rw [if_pos hok]

/-- Every in-loop observation carries the kinematic slip angle of its own
steering command in the heading slot (also on cycles that abort). -/
theorem rolloutLoop_obs_heading {S : Type} (P : Obs → ℝ × ℝ)
    (step : S → ℝ × ℝ → S × SimObs) (nb : ℕ) :
    ∀ (n : ℕ) (env : S) (s v : ℝ),
      ∀ o ∈ (rolloutLoop P step nb n env s v).obsLog,
        o.heading.2 = get_beta o.heading.1 := by
  intro n
  induction n with
  | zero =>
      intro env s v o ho
      simp [rolloutLoop] at ho
  | succ m ih =>
      intro env s v o ho
      rcases hg : gatherIdx ((step env (s, v)).2).scan (SCAN_INDEX nb) with _ | sc
      · simp [rolloutLoop, hg] at ho
      · simp only [rolloutLoop, hg, List.mem_cons] at ho
        rcases ho with h | h
        · subst h; rfl
        · exact ih _ _ _ o h

/-- C1: a planning-mode cycle with horizon `n` whose simulator scans cover
the subsampling indices (so that no iteration aborts with an `IndexError`)
invokes the policy exactly `n + 1` times (once on the real current state
before the loop, once per loop iteration) and steps the forward simulator
exactly `n` times, never terminating early or late; in particular, for the
end-to-end scenario with horizon 2 the policy runs exactly 3 times and the
simulator exactly 2. -/
theorem c1_rollout_counts :
    (∀ (S : Type) (P : Obs → ℝ × ℝ) (reset : ℝ × ℝ × ℝ → S)
        (step : S → ℝ × ℝ → S × SimObs) (nb n k : ℕ)
        (st : NodeState) (msg : OdomMsg),
        (∀ (s : S) (a : ℝ × ℝ), ∀ i ∈ SCAN_INDEX nb,
          i < ((step s a).2).scan.length) →
        (pose_callback P reset step nb n k false st msg).calls = n + 1
        ∧ (pose_callback P reset step nb n k false st msg).steps = n)
    ∧ (pose_callback constPolicy unitReset unitStep 1080 2 1 false st0 msg0).calls = 3
    ∧ (pose_callback constPolicy unitReset unitStep 1080 2 1 false st0 msg0).steps = 2 := by
  have hgen : ∀ (S : Type) (P : Obs → ℝ × ℝ) (reset : ℝ × ℝ × ℝ → S)
      (step : S → ℝ × ℝ → S × SimObs) (nb n k : ℕ)
      (st : NodeState) (msg : OdomMsg),
      (∀ (s : S) (a : ℝ × ℝ), ∀ i ∈ SCAN_INDEX nb,
        i < ((step s a).2).scan.length) →
      (pose_callback P reset step nb n k false st msg).calls = n + 1
      ∧ (pose_callback P reset step nb n k false st msg).steps = n := by
    intro S P reset step nb n k st msg hscan
    have hcomp := rolloutLoop_complete P step nb hscan n
      (reset (msg.px, msg.py, 2 * Real.arccos msg.ow))
      (run_model P (initialObs st msg)).1 (run_model P (initialObs st msg)).2
    constructor
    · simp [pose_callback, hcomp.1, hcomp.2.1, Nat.add_comm]
    · simp [pose_callback, hcomp.1, hcomp.2.2.1]
  obtain ⟨h1, h2⟩ := hgen Unit constPolicy unitReset unitStep 1080 2 1 st0 msg0
    (unitStep_scan_long 1080 (by norm_num) (by norm_num))
  exact ⟨hgen, by omega, h2⟩

/-- Concrete instance of C1 with the scan-coverage hypothesis discharged:
full-resolution simulator scans, horizon 2. -/
theorem c1_witness :
    (∀ (s : Unit) (a : ℝ × ℝ), ∀ i ∈ SCAN_INDEX 1080,
      i < ((unitStep s a).2).scan.length)
    ∧ (pose_callback constPolicy unitReset unitStep 1080 2 1 false st0 msg0).calls = 3
    ∧ (pose_callback constPolicy unitReset unitStep 1080 2 1 false st0 msg0).steps = 2 := by
  have hs := unitStep_scan_long 1080 (by norm_num) (by norm_num)
  obtain ⟨h1, h2⟩ :=
    c1_rollout_counts.1 Unit constPolicy unitReset unitStep 1080 2 1 st0 msg0 hs
  exact ⟨hs, by omega, h2⟩

/-- C9: in direct-drive mode every pose callback publishes the drive command
computed from the real state and returns at once: the simulator is never
reset or stepped, no reference trajectory and no visualization message is
published, and only the stored pose, velocities and heading are updated
(the scan buffer is untouched). -/
theorem c9_drive_mode_frame (S : Type) (P : Obs → ℝ × ℝ)
    (reset : ℝ × ℝ × ℝ → S) (step : S → ℝ × ℝ → S × SimObs)
    (nb n k : ℕ) (st : NodeState) (msg : OdomMsg) :
    (pose_callback P reset step nb n k true st msg).drive
        = some (run_model P (initialObs st msg))
    ∧ (pose_callback P reset step nb n k true st msg).resets = 0
    ∧ (pose_callback P reset step nb n k true st msg).steps = 0
    ∧ (pose_callback P reset step nb n k true st msg).traj = none
    ∧ (pose_callback P reset step nb n k true st msg).fineTraj = none
    ∧ (pose_callback P reset step nb n k true st msg).viz = none
    ∧ (pose_callback P reset step nb n k true st msg).state.pose
        = (msg.px, msg.py, 2 * Real.arccos msg.ow)
    ∧ (pose_callback P reset step nb n k true st msg).state.vels
        = (msg.vx, msg.vy, msg.wz)
    ∧ (pose_callback P reset step nb n k true st msg).state.heading
        = ((run_model P (initialObs st msg)).1,
            get_beta (run_model P (initialObs st msg)).1)
    ∧ (pose_callback P reset step nb n k true st msg).state.laserScan
        = st.laserScan :=
  ⟨rfl, rfl, rfl, rfl, rfl, rfl, rfl, rfl, rfl, rfl⟩

/-- C8: on a planning-mode cycle whose rollout completes (simulator scans
cover the subsampling indices), resampling with any positive stride keeps
index 0, so the first element of the published trajectory is the step-0
state vector built from the real current pose, velocity and the current
cycle's action. -/
theorem c8_first_published_point (S : Type) (P : Obs → ℝ × ℝ)
    (reset : ℝ × ℝ × ℝ → S) (step : S → ℝ × ℝ → S × SimObs)
    (nb n k : ℕ) (st : NodeState) (msg : OdomMsg)
    (hscan : ∀ (s : S) (a : ℝ × ℝ), ∀ i ∈ SCAN_INDEX nb,
      i < ((step s a).2).scan.length)
    (hk : 0 < k) :
    ∃ t, (pose_callback P reset step nb n k false st msg).traj = some t
      ∧ t.head? = some (to_mppi_state msg.px msg.py (2 * Real.arccos msg.ow)
          msg.wz msg.vx msg.vy (run_model P (initialObs st msg)).1) := by
  have hcomp := rolloutLoop_complete P step nb hscan n
    (reset (msg.px, msg.py, 2 * Real.arccos msg.ow))
    (run_model P (initialObs st msg)).1 (run_model P (initialObs st msg)).2
  rw [pose_callback_plan_ok P reset step nb n k st msg hcomp.1]
  refine ⟨_, rfl, ?_⟩
  exact everyK_cons_head k _ _

/-- Concrete instance of C8 with the scan-coverage and stride hypotheses
discharged. -/
theorem c8_witness :
    (∀ (s : Unit) (a : ℝ × ℝ), ∀ i ∈ SCAN_INDEX 1080,
      i < ((unitStep s a).2).scan.length)
    ∧ 0 < 1 ∧ ∃ t,
      (pose_callback constPolicy unitReset unitStep 1080 2 1 false st0 msg0).traj = some t
      ∧ t.head? = some (to_mppi_state msg0.px msg0.py (2 * Real.arccos msg0.ow)
          msg0.wz msg0.vx msg0.vy (run_model constPolicy (initialObs st0 msg0)).1) :=
  ⟨unitStep_scan_long 1080 (by norm_num) (by norm_num), Nat.one_pos,
    c8_first_published_point Unit constPolicy unitReset unitStep 1080 2 1 st0 msg0
      (unitStep_scan_long 1080 (by norm_num) (by norm_num)) Nat.one_pos⟩

/-- C5: the heading slip angle fed to the policy in every cycle and every
rollout step is the kinematic bicycle-model angle
`arctan(LR tan(steer) / (LF + LR))` (given a stored heading that already
satisfies this relation, which the callback itself re-establishes), while
the `beta` field of every formatted output state is the velocity-vector
angle `arctan2 vy vx`; the two definitions are genuinely different:
at steer `0`, `vx = 0`, `vy = 1` they give `0` and `pi / 2`. -/
theorem c5_two_slip_angles :
    (∀ (S : Type) (P : Obs → ℝ × ℝ) (reset : ℝ × ℝ × ℝ → S)
        (step : S → ℝ × ℝ → S × SimObs) (nb n k : ℕ) (d : Bool)
        (st : NodeState) (msg : OdomMsg),
        st.heading.2 = get_beta st.heading.1 →
        ∀ o ∈ (pose_callback P reset step nb n k d st msg).obsLog,
          o.heading.2 = Real.arctan (LR * Real.tan o.heading.1 / (LF + LR)))
    ∧ (∀ (S : Type) (P : Obs → ℝ × ℝ) (reset : ℝ × ℝ × ℝ → S)
        (step : S → ℝ × ℝ → S × SimObs) (nb n k : ℕ) (d : Bool)
        (st : NodeState) (msg : OdomMsg),
        (pose_callback P reset step nb n k d st msg).state.heading.2
          = get_beta (pose_callback P reset step nb n k d st msg).state.heading.1)
    ∧ (∀ x y yaw yr vx vy dl : ℝ,
        (to_mppi_state x y yaw yr vx vy dl).beta = arctan2 vy vx)
    ∧ get_beta 0 = 0 ∧ arctan2 1 0 = Real.pi / 2
    ∧ get_beta 0 ≠ arctan2 1 0 := by
  have hform : ∀ z : ℝ,
      get_beta z = Real.arctan (LR * Real.tan z / (LF + LR)) := fun _ => rfl
  have hgb0 : get_beta 0 = 0 := by
    simp [get_beta, Real.tan_zero, Real.arctan_zero]
  have hat2 : arctan2 1 0 = Real.pi / 2 := by
    norm_num [arctan2]
  refine ⟨?_, ?_, ?_, hgb0, hat2, ?_⟩
  · intro S P reset step nb n k d st msg hinv o ho
    cases d
    · simp only [pose_callback, Bool.false_eq_true, if_false,
        apply_ite CycleOutput.obsLog, ite_self, List.mem_cons] at ho
      rcases ho with h | h
      · subst h
        rw [← hform]
        exact hinv
      · rw [← hform]
        exact rolloutLoop_obs_heading P step nb n _ _ _ o h
    · simp only [pose_callback, if_true, List.mem_cons, List.not_mem_nil,
        or_false] at ho
      subst ho
      rw [← hform]
      exact hinv
  · intro S P reset step nb n k d st msg
    cases d
    · simp only [pose_callback, Bool.false_eq_true, if_false,
        apply_ite CycleOutput.state, ite_self]
    · rfl
  · intro x y yaw yr vx vy dl
    rfl
  · rw [hgb0, hat2]
    have hp := Real.pi_pos
    intro h
    linarith

/-- Concrete instance of C5 with the heading invariant discharged. -/
theorem c5_witness :
    st0.heading.2 = get_beta st0.heading.1
    ∧ ∀ o ∈ (pose_callback constPolicy unitReset unitStep 1080 2 1 false st0 msg0).obsLog,
        o.heading.2 = Real.arctan (LR * Real.tan o.heading.1 / (LF + LR)) := by
  have hinv : st0.heading.2 = get_beta st0.heading.1 := by
    show (0 : ℝ) = get_beta 0
    simp [get_beta, Real.tan_zero, Real.arctan_zero]
  exact ⟨hinv, c5_two_slip_angles.1 Unit constPolicy unitReset unitStep
    1080 2 1 false st0 msg0 hinv⟩

/-- C3 (amended): the published trajectory is the fine-grained
`(n + 1)`-element trajectory resampled by keeping every `k`-th element, and
its length is the ceiling `(n + 1 + k - 1) / k`, not the floor
`(n + 1) / k`. -/
theorem c3_resampled_length (S : Type) (P : Obs → ℝ × ℝ)
    (reset : ℝ × ℝ × ℝ → S) (step : S → ℝ × ℝ → S × SimObs)
    (nb n k : ℕ) (st : NodeState) (msg : OdomMsg)
    (hscan : ∀ (s : S) (a : ℝ × ℝ), ∀ i ∈ SCAN_INDEX nb,
      i < ((step s a).2).scan.length)
    (hk : 0 < k) :
    ∃ fine, (pose_callback P reset step nb n k false st msg).fineTraj = some fine
      ∧ fine.length = n + 1
      ∧ (pose_callback P reset step nb n k false st msg).traj = some (everyK k fine)
      ∧ (everyK k fine).length = (n + 1 + k - 1) / k := by
  have hcomp := rolloutLoop_complete P step nb hscan n
    (reset (msg.px, msg.py, 2 * Real.arccos msg.ow))
    (run_model P (initialObs st msg)).1 (run_model P (initialObs st msg)).2
  rw [pose_callback_plan_ok P reset step nb n k st msg hcomp.1]
  refine ⟨_, rfl, ?_, rfl, ?_⟩
  · simp [hcomp.2.2.2]
  · rw [everyK_length k hk]
    simp [hcomp.2.2.2]

/-- Concrete instance of C3 for horizon 8 and stride 4: the published
trajectory has 3 elements. -/
theorem c3_witness :
    (∀ (s : Unit) (a : ℝ × ℝ), ∀ i ∈ SCAN_INDEX 2,
      i < ((unitStep s a).2).scan.length)
    ∧ 0 < 4 ∧ ∃ fine,
      (pose_callback constPolicy unitReset unitStep 2 8 4 false st0 msg0).fineTraj
          = some fine
      ∧ fine.length = 9
      ∧ (pose_callback constPolicy unitReset unitStep 2 8 4 false st0 msg0).traj
          = some (everyK 4 fine)
      ∧ (everyK 4 fine).length = 3 := by
  have hs := unitStep_scan_long 2 (by norm_num) (by norm_num)
  obtain ⟨fine, h1, h2, h3, h4⟩ :=
    c3_resampled_length Unit constPolicy unitReset unitStep 2 8 4 st0 msg0 hs
      (by norm_num)
  exact ⟨hs, by norm_num, fine, h1, by omega, h3, by omega⟩

set_option maxRecDepth 40000 in
/-- C3 counterexample: for horizon 8 and stride 4 the published trajectory
has 3 elements, whereas the claimed count `⌊(8 + 1) / 4⌋` is 2. -/
theorem c3_floor_counterexample :
    (pose_callback constPolicy unitReset unitStep 2 8 4 false st0 msg0).traj.map
        List.length = some 3
    ∧ (3 : ℕ) ≠ (8 + 1) / 4 := by
  constructor
  · rfl
  · norm_num

/-- C7 (amended): for every incoming range scan of length at least 1080,
with a positive configured beam count dividing 1080, the scan preprocessor
produces a buffer of exactly the configured beam count, and (for
`range_min ≤ range_max`) every reading in the buffer lies within
`[range_min, range_max]`. -/
theorem c7_scan_buffer (nBeams : ℕ) (range_min range_max : ℝ) (ranges : List ℝ)
    (hn : 0 < nBeams) (hd : nBeams ∣ 1080) (hlen : 1080 ≤ ranges.length)
    (hr : range_min ≤ range_max) :
    ∃ out, laser_callback nBeams range_min range_max ranges = some out
      ∧ out.length = nBeams
      ∧ ∀ v ∈ out, range_min ≤ v ∧ v ≤ range_max := by
  obtain ⟨hcnt, hbound⟩ := SCAN_INDEX_facts nBeams hn hd
  have hvlen : (ranges.map (clip range_min range_max)).length = ranges.length := by
    simp
  obtain ⟨out, hout, holen, hmem⟩ :=
    gatherIdx_total (ranges.map (clip range_min range_max)) (SCAN_INDEX nBeams)
      fun i hi => by
        rw [hvlen]
        exact lt_of_lt_of_le (hbound i hi) hlen
  refine ⟨out, hout, by rw [holen, hcnt], ?_⟩
  intro v hv
  obtain ⟨r, _, hrv⟩ := List.mem_map.mp (hmem v hv)
  rw [← hrv]
  exact clip_mem range_min range_max r hr

/-- Concrete instance of C7 with all hypotheses discharged: 4 beams, a
full-resolution scan of 1080 readings of 5 m, range limits `[0, 10]`. -/
theorem c7_witness :
    0 < 4 ∧ (4 : ℕ) ∣ 1080 ∧ 1080 ≤ (List.replicate 1080 (5 : ℝ)).length
    ∧ (0 : ℝ) ≤ 10
    ∧ ∃ out, laser_callback 4 0 10 (List.replicate 1080 (5 : ℝ)) = some out
      ∧ out.length = 4 ∧ ∀ v ∈ out, (0 : ℝ) ≤ v ∧ v ≤ 10 := by
  have hlen : 1080 ≤ (List.replicate 1080 (5 : ℝ)).length := by
    rw [List.length_replicate]
  refine ⟨by norm_num, by norm_num, hlen, by norm_num, ?_⟩
  exact c7_scan_buffer 4 0 10 (List.replicate 1080 5) (by norm_num) (by norm_num)
    hlen (by norm_num)

/-- C7 counterexample: a scan of length 4 — an integer multiple of the beam
count 4 — makes the hard-coded subsampling indices `0, 270, 540, 810` run
out of bounds (NumPy raises `IndexError`, modelled `none`): no buffer of
length 4 is produced, refuting the claim for arbitrary multiples of the
beam count. -/
theorem c7_short_scan_counterexample :
    laser_callback 4 0 10 (List.replicate 4 (5 : ℝ)) = none := by
  rfl

end
